import Mathlib

/-!
Verification of the CareStack proxy server (src/server.js).

The server is embedded shallowly: the mutable in-memory token cache becomes
explicit state passing, the two `fetch` round trips (token endpoint, upstream
scheduling endpoint) become oracle arguments describing the response the
network would deliver, and thrown JS errors become `Except.error`.  JavaScript
truthiness on the strings involved (`tokenCache.access_token`, query
parameters, environment variables, `json.expires_in`) is modelled explicitly:
`null`/`undefined`/`""` are falsy strings, `0` is a falsy number.
Times are epoch milliseconds as integers; `now` is the `Date.now()` read at
entry of `getAccessToken` and `storeTime` the later `Date.now()` read when the
fresh token is stored.
-/

namespace CareStack

/-- The in-memory token cache (`tokenCache` in server.js): an access token
that may be absent (`null`) and an expiry in epoch milliseconds. -/
structure TokenCache where
  access_token : Option String
  expires_at : Int
deriving Repr, DecidableEq

/-- The initial value `let tokenCache = { access_token: null, expires_at: 0 }`. -/
def initialTokenCache : TokenCache := { access_token := none, expires_at := 0 }

/-- The environment variables read by `getAccessToken`.  A variable that is
unset in the process environment behaves, under `process.env.X || default`,
exactly like one set to the empty string, so both are modelled as `""`. -/
structure Env where
  CS_TOKEN_URL : String
  CS_CLIENT_ID : String
  CS_CLIENT_SECRET : String
  CS_USERNAME : String
  CS_PASSWORD : String
deriving Repr, DecidableEq

/-- Reads `process.env.X || d`: the default applies when the variable is unset or
empty (both falsy in JS). -/
def envOr (v d : String) : String := if v = "" then d else v

/-- JS truthiness of an optional string: `null`, `undefined` and `""` are
falsy. -/
def truthyStr : Option String → Bool
  | none => false
  | some s => s != ""

/-- The JSON body of a token-endpoint response: `access_token` and
`expires_in` may each be absent. -/
structure TokenJson where
  access_token : Option String
  expires_in : Option Int
deriving Repr, DecidableEq

/-- Computes `Number(json.expires_in || 300)`: the 300-second default applies when
`expires_in` is absent or `0` (both falsy in JS). -/
def jsExpiresIn (j : TokenJson) : Int :=
  match j.expires_in with
  | none => 300
  | some n => if n = 0 then 300 else n

/-- What the network delivers for the `fetchFn(tokenUrl, ...)` call: either
the transport throws, or an HTTP response arrives with `resp.ok` (status in
200..299), status, status text, raw text and parsed JSON body. -/
inductive TokenFetchOutcome where
  | transportError (msg : String)
  | httpResponse (ok : Bool) (status : Nat) (statusText : String)
      (text : String) (json : TokenJson)
deriving Repr, DecidableEq

/-- The error message thrown by the missing-credentials guard. -/
def missingCredsMsg : String :=
  "Missing token credentials. Please set CS_CLIENT_ID, CS_CLIENT_SECRET, CS_USERNAME, CS_PASSWORD"

/-- The error message thrown on a non-2xx token-endpoint response. -/
def tokenFailMsg (status : Nat) (statusText text : String) : String :=
  s!"Token request failed: {status} {statusText} {text}"

instance {ε α : Type} [DecidableEq ε] [DecidableEq α] : DecidableEq (Except ε α) := fun a b =>
  match a, b with
  | .ok x, .ok y => if h : x = y then .isTrue (by rw [h]) else .isFalse (by simp [h])
  | .error x, .error y => if h : x = y then .isTrue (by rw [h]) else .isFalse (by simp [h])
  | .ok _, .error _ => .isFalse (by simp)
  | .error _, .ok _ => .isFalse (by simp)

/-- Result of one `getAccessToken()` call: the value returned or the error
thrown, the token cache after the call, and whether a network call to the
token endpoint was made. -/
structure GetTokenResult where
  result : Except String (Option String)
  cache : TokenCache
  networkCall : Bool
deriving Repr, DecidableEq

/-- The function `getAccessToken` from server.js.  `now` is `Date.now()` at entry,
`outcome` the token-endpoint response the network would deliver if the
request is sent, `storeTime` the `Date.now()` read when storing the fresh
token, and `cache` the token cache at entry. -/
def getAccessToken (env : Env) (now : Int) (outcome : TokenFetchOutcome)
    (storeTime : Int) (cache : TokenCache) : GetTokenResult :=
  if truthyStr cache.access_token && decide (now < cache.expires_at - 60000) then
    { result := .ok cache.access_token, cache := cache, networkCall := false }
  else
    let client_id := envOr env.CS_CLIENT_ID "dentaltech_api_client"
    let client_secret := envOr env.CS_CLIENT_SECRET ""
    let username := envOr env.CS_USERNAME ""
    let password := envOr env.CS_PASSWORD ""
    if client_id = "" ∨ client_secret = "" ∨ username = "" ∨ password = "" then
      { result := .error missingCredsMsg, cache := cache, networkCall := false }
    else
      match outcome with
      | .transportError msg =>
          { result := .error msg, cache := cache, networkCall := true }
      | .httpResponse ok status statusText text json =>
          if ok then
            { result := .ok json.access_token,
              cache := { access_token := json.access_token,
                         expires_at := storeTime + jsExpiresIn json * 1000 },
              networkCall := true }
          else
            { result := .error (tokenFailMsg status statusText text),
              cache := cache, networkCall := true }

/-- The four query parameters of `/api/find-slot`; each may be absent. -/
structure Query where
  fromDate : Option String
  locationId : Option String
  providerId : Option String
  productionTypeId : Option String
deriving Repr, DecidableEq

/-- The check `!fromDate || !locationId || !providerId || !productionTypeId`. -/
def missingParams (q : Query) : Bool :=
  !truthyStr q.fromDate || !truthyStr q.locationId ||
  !truthyStr q.providerId || !truthyStr q.productionTypeId

/-- The 400-response error message of `/api/find-slot`. -/
def missingParamsMsg : String :=
  "Missing required query params: fromDate, locationId, providerId, productionTypeId"

/-- What the network delivers for the upstream scheduling call: either the
transport throws, or an HTTP response arrives with status, an optional
`content-type` header, and raw body text. -/
inductive UpstreamOutcome where
  | transportError (msg : String)
  | httpResponse (status : Nat) (contentType : Option String) (text : String)
deriving Repr, DecidableEq

/-- The body the server sends back: `res.json({error})`,
`res.json({error, detail})`, `res.json({access_token, expires_at})`, or the
raw relayed upstream text. -/
inductive ReplyBody where
  | jsonError (msg : String)
  | jsonErrorDetail (msg detail : String)
  | jsonToken (access_token : Option String) (expires_at : Int)
  | raw (text : String)
deriving Repr, DecidableEq

/-- The content type express attaches to `res.json(...)`, also the default
used when the upstream response has no `content-type` header. -/
def jsonDefaultCT : String := "application/json; charset=utf-8"

/-- Result of one `/api/find-slot` request: the response sent to the caller
(status, content type, body), whether a network call to the token endpoint
happened, whether the upstream scheduling request was sent and with which
bearer token value, and the token cache afterwards. -/
structure FindSlotResult where
  status : Nat
  contentType : String
  body : ReplyBody
  tokenNetworkCall : Bool
  upstreamCalled : Bool
  authTokenSent : Option (Option String)
  cache : TokenCache
deriving Repr, DecidableEq

/-- The `/api/find-slot` handler from server.js.  Note the source order: the
handler awaits `getAccessToken()` first and destructures / validates the
query parameters only afterwards; any error thrown (including token-fetch
failures) is caught and turned into a 500 `Proxy failure` response. -/
def findSlot (env : Env) (now : Int) (tokenOutcome : TokenFetchOutcome)
    (storeTime : Int) (q : Query) (upstream : UpstreamOutcome)
    (cache : TokenCache) : FindSlotResult :=
  let g := getAccessToken env now tokenOutcome storeTime cache
  match g.result with
  | .error e =>
      { status := 500, contentType := jsonDefaultCT,
        body := .jsonErrorDetail "Proxy failure" e,
        tokenNetworkCall := g.networkCall, upstreamCalled := false,
        authTokenSent := none, cache := g.cache }
  | .ok token =>
      if missingParams q then
        { status := 400, contentType := jsonDefaultCT,
          body := .jsonError missingParamsMsg,
          tokenNetworkCall := g.networkCall, upstreamCalled := false,
          authTokenSent := none, cache := g.cache }
      else
        match upstream with
        | .transportError msg =>
            { status := 500, contentType := jsonDefaultCT,
              body := .jsonErrorDetail "Proxy failure" msg,
              tokenNetworkCall := g.networkCall, upstreamCalled := true,
              authTokenSent := some token, cache := g.cache }
        | .httpResponse status ct text =>
            { status := status, contentType := ct.getD jsonDefaultCT,
              body := .raw text,
              tokenNetworkCall := g.networkCall, upstreamCalled := true,
              authTokenSent := some token, cache := g.cache }

/-- Result of one `/api/token` request. -/
structure ApiTokenResult where
  status : Nat
  body : ReplyBody
  cache : TokenCache
deriving Repr, DecidableEq

/-- The `/api/token` diagnostic handler from server.js. -/
def apiToken (env : Env) (now : Int) (outcome : TokenFetchOutcome)
    (storeTime : Int) (cache : TokenCache) : ApiTokenResult :=
  let g := getAccessToken env now outcome storeTime cache
  match g.result with
  | .ok t => { status := 200, body := .jsonToken t g.cache.expires_at, cache := g.cache }
  | .error e => { status := 500, body := .jsonError e, cache := g.cache }

/-- The spec's Token State invariant: `expires_at` is meaningful (non-zero)
only when `access_token` is present. -/
def cacheInv (c : TokenCache) : Bool :=
  c.access_token.isSome || (c.expires_at == 0)

/-- A token-endpoint outcome whose success body carries an `access_token`
field (failures vacuously qualify). -/
def successHasToken : TokenFetchOutcome → Bool
  | .transportError _ => true
  | .httpResponse ok _ _ _ j => !ok || j.access_token.isSome

/-- A token-endpoint outcome on which the fetch fails: the transport throws
or the response status is not 2xx. -/
def outcomeFails : TokenFetchOutcome → Bool
  | .transportError _ => true
  | .httpResponse ok _ _ _ _ => !ok

/-- A fully configured environment, used for concrete evaluations. -/
def envFull : Env :=
  { CS_TOKEN_URL := "", CS_CLIENT_ID := "", CS_CLIENT_SECRET := "sec",
    CS_USERNAME := "user", CS_PASSWORD := "pw" }

/-! ## Helper lemmas -/

lemma envOr_self (v : String) : envOr v "" = v := by
  unfold envOr; split <;> simp_all

lemma envOr_client_id_ne (v : String) : envOr v "dentaltech_api_client" ≠ "" := by
  unfold envOr; split <;> simp_all

/-- On a cache miss with the three required credentials set, the credential
guard passes and `getAccessToken` proceeds to the network match. -/
lemma getAccessToken_refresh (env : Env) (now : Int) (outcome : TokenFetchOutcome)
    (storeTime : Int) (cache : TokenCache)
    (hmiss : (truthyStr cache.access_token && decide (now < cache.expires_at - 60000)) = false)
    (hcs : env.CS_CLIENT_SECRET ≠ "") (hun : env.CS_USERNAME ≠ "")
    (hpw : env.CS_PASSWORD ≠ "") :
    getAccessToken env now outcome storeTime cache =
      match outcome with
      | .transportError msg =>
          { result := .error msg, cache := cache, networkCall := true }
      | .httpResponse ok status statusText text json =>
          if ok then
            { result := .ok json.access_token,
              cache := { access_token := json.access_token,
                         expires_at := storeTime + jsExpiresIn json * 1000 },
              networkCall := true }
          else
            { result := .error (tokenFailMsg status statusText text),
              cache := cache, networkCall := true } := by
  unfold getAccessToken
  rw [if_neg (by simp [hmiss]), if_neg]
  push_neg
  exact ⟨envOr_client_id_ne _, by rwa [envOr_self], by rwa [envOr_self], by rwa [envOr_self]⟩

/-- A call to `getAccessToken` either leaves the cache untouched or, on a 2xx response,
overwrites both fields from the response body. -/
lemma getAccessToken_cache_cases (env : Env) (now : Int) (outcome : TokenFetchOutcome)
    (storeTime : Int) (cache : TokenCache) :
    (getAccessToken env now outcome storeTime cache).cache = cache ∨
    ∃ status statusText text json,
      outcome = .httpResponse true status statusText text json ∧
      (getAccessToken env now outcome storeTime cache).result = .ok json.access_token ∧
      (getAccessToken env now outcome storeTime cache).cache =
        { access_token := json.access_token,
          expires_at := storeTime + jsExpiresIn json * 1000 } := by
  by_cases h1 : (truthyStr cache.access_token && decide (now < cache.expires_at - 60000)) = true
  · left
    unfold getAccessToken
    rw [if_pos h1]
  · by_cases hg : (envOr env.CS_CLIENT_ID "dentaltech_api_client" = "" ∨
        envOr env.CS_CLIENT_SECRET "" = "" ∨ envOr env.CS_USERNAME "" = "" ∨
        envOr env.CS_PASSWORD "" = "")
    · left
      unfold getAccessToken
      rw [if_neg h1, if_pos hg]
    · unfold getAccessToken
      rw [if_neg h1, if_neg hg]
      cases outcome with
      | transportError msg => exact Or.inl rfl
      | httpResponse ok status statusText text json =>
        cases ok
        · exact Or.inl rfl
        · exact Or.inr ⟨status, statusText, text, json, rfl, rfl, rfl⟩

lemma apiToken_cache (env : Env) (now : Int) (outcome : TokenFetchOutcome)
    (storeTime : Int) (cache : TokenCache) :
    (apiToken env now outcome storeTime cache).cache =
      (getAccessToken env now outcome storeTime cache).cache := by
  simp only [apiToken]
  cases h : (getAccessToken env now outcome storeTime cache).result <;> simp [h]

lemma findSlot_cache (env : Env) (now : Int) (tokenOutcome : TokenFetchOutcome)
    (storeTime : Int) (q : Query) (upstream : UpstreamOutcome) (cache : TokenCache) :
    (findSlot env now tokenOutcome storeTime q upstream cache).cache =
      (getAccessToken env now tokenOutcome storeTime cache).cache := by
  simp only [findSlot]
  cases h : (getAccessToken env now tokenOutcome storeTime cache).result with
  | error e => simp [h]
  | ok t =>
    cases hq : missingParams q
    · cases upstream <;> simp [h, hq]
    · simp [h, hq]

/-! ## Claim theorems -/

/-- C1: when the cache holds a truthy access token and the current time is
strictly below `expires_at` minus 60 seconds, `getAccessToken` returns the
cached token, makes no network call to the token endpoint, and leaves the
token state unchanged. -/
theorem cacheHit_returns_cached (env : Env) (now : Int) (outcome : TokenFetchOutcome)
    (storeTime : Int) (cache : TokenCache)
    (htok : truthyStr cache.access_token = true)
    (hfresh : now < cache.expires_at - 60000) :
    getAccessToken env now outcome storeTime cache =
      { result := .ok cache.access_token, cache := cache, networkCall := false } := by
  unfold getAccessToken
  rw [if_pos (by simp [htok, hfresh])]

theorem cacheHit_returns_cached_witness :
    truthyStr (some "tok") = true ∧ ((0 : Int) < 1000000 - 60000) ∧
    getAccessToken envFull 0 (.transportError "boom") 0
        { access_token := some "tok", expires_at := 1000000 } =
      { result := .ok (some "tok"),
        cache := { access_token := some "tok", expires_at := 1000000 },
        networkCall := false } :=
  ⟨by decide, by decide,
    cacheHit_returns_cached envFull 0 (.transportError "boom") 0
      { access_token := some "tok", expires_at := 1000000 } (by decide) (by decide)⟩

/-- C3: when `getAccessToken` takes the refresh path (cache-hit test false,
credentials configured) and the token fetch fails — the transport throws or
the response is non-2xx — the call returns an error, the token state is
exactly the state before the call, and the network call did happen. -/
theorem refresh_failure_atomic (env : Env) (now : Int) (outcome : TokenFetchOutcome)
    (storeTime : Int) (cache : TokenCache)
    (hmiss : (truthyStr cache.access_token && decide (now < cache.expires_at - 60000)) = false)
    (hcs : env.CS_CLIENT_SECRET ≠ "") (hun : env.CS_USERNAME ≠ "")
    (hpw : env.CS_PASSWORD ≠ "")
    (hfail : outcomeFails outcome = true) :
    (∃ e, (getAccessToken env now outcome storeTime cache).result = .error e) ∧
    (getAccessToken env now outcome storeTime cache).cache = cache ∧
    (getAccessToken env now outcome storeTime cache).networkCall = true := by
  rw [getAccessToken_refresh env now outcome storeTime cache hmiss hcs hun hpw]
  cases outcome with
  | transportError msg => exact ⟨⟨msg, rfl⟩, rfl, rfl⟩
  | httpResponse ok status statusText text json =>
    simp only [outcomeFails, Bool.not_eq_true'] at hfail
    subst hfail
    exact ⟨⟨tokenFailMsg status statusText text, rfl⟩, rfl, rfl⟩

theorem refresh_failure_atomic_witness :
    (∃ e, (getAccessToken envFull 5 (.httpResponse false 401 "Unauthorized" "denied" ⟨none, none⟩)
        7 initialTokenCache).result = .error e) ∧
    (getAccessToken envFull 5 (.httpResponse false 401 "Unauthorized" "denied" ⟨none, none⟩)
        7 initialTokenCache).cache = initialTokenCache ∧
    (getAccessToken envFull 5 (.httpResponse false 401 "Unauthorized" "denied" ⟨none, none⟩)
        7 initialTokenCache).networkCall = true :=
  refresh_failure_atomic envFull 5 (.httpResponse false 401 "Unauthorized" "denied" ⟨none, none⟩)
    7 initialTokenCache (by decide) (by decide) (by decide) (by decide) (by decide)

/-- C5: a successful 2xx token response whose JSON body has no `expires_in`
field yields a cache expiry of the store-time `Date.now()` plus 300 seconds. -/
theorem expiresIn_absent_default_300 (env : Env) (now : Int) (status : Nat)
    (statusText text : String) (json : TokenJson) (storeTime : Int) (cache : TokenCache)
    (hmiss : (truthyStr cache.access_token && decide (now < cache.expires_at - 60000)) = false)
    (hcs : env.CS_CLIENT_SECRET ≠ "") (hun : env.CS_USERNAME ≠ "")
    (hpw : env.CS_PASSWORD ≠ "")
    (habs : json.expires_in = none) :
    (getAccessToken env now (.httpResponse true status statusText text json)
        storeTime cache).cache.expires_at = storeTime + 300 * 1000 := by
  rw [getAccessToken_refresh env now _ storeTime cache hmiss hcs hun hpw]
  simp [jsExpiresIn, habs]

theorem expiresIn_absent_default_300_witness :
    (getAccessToken envFull 0 (.httpResponse true 200 "OK" "" ⟨some "t", none⟩)
        4000 initialTokenCache).cache.expires_at = 4000 + 300 * 1000 :=
  expiresIn_absent_default_300 envFull 0 200 "OK" "" ⟨some "t", none⟩ 4000
    initialTokenCache (by decide) (by decide) (by decide) (by decide) (by decide)

/-- C4 counterexample: a 2xx response whose body contains `access_token` and
`expires_in = 0` does not yield `expires_at = now + expires_in`: the JS
expression `Number(json.expires_in || 300)` treats the falsy `0` like absence
and applies the 300-second default. -/
theorem expiresIn_zero_counterexample :
    (getAccessToken envFull 0 (.httpResponse true 200 "OK" "" ⟨some "tok", some 0⟩)
        0 initialTokenCache).cache.expires_at = 300000 ∧
    (300000 : Int) ≠ 0 + 0 * 1000 := by
  constructor
  · rfl
  · decide

/-- C4 (amended): a 2xx token response whose body contains `access_token` and
a nonzero `expires_in` overwrites both cache fields — the token to the body's
`access_token`, the expiry to the store-time `Date.now()` plus `expires_in`
seconds — and returns the new token; a zero (or absent) `expires_in` falls
back to the 300-second default instead. -/
theorem refresh_success_updates_cache (env : Env) (now : Int) (status : Nat)
    (statusText text t : String) (json : TokenJson) (storeTime : Int) (cache : TokenCache)
    (hmiss : (truthyStr cache.access_token && decide (now < cache.expires_at - 60000)) = false)
    (hcs : env.CS_CLIENT_SECRET ≠ "") (hun : env.CS_USERNAME ≠ "")
    (hpw : env.CS_PASSWORD ≠ "")
    (ht : json.access_token = some t) (n : Int) (hexp : json.expires_in = some n)
    (hn : n ≠ 0) :
    getAccessToken env now (.httpResponse true status statusText text json)
        storeTime cache =
      { result := .ok (some t),
        cache := { access_token := some t, expires_at := storeTime + n * 1000 },
        networkCall := true } := by
  rw [getAccessToken_refresh env now _ storeTime cache hmiss hcs hun hpw]
  simp [jsExpiresIn, ht, hexp, hn]

theorem refresh_success_updates_cache_witness :
    getAccessToken envFull 0 (.httpResponse true 200 "OK" "" ⟨some "t2", some 100⟩)
        50 initialTokenCache =
      { result := .ok (some "t2"),
        cache := { access_token := some "t2", expires_at := 50 + 100 * 1000 },
        networkCall := true } :=
  refresh_success_updates_cache envFull 0 200 "OK" "" "t2" ⟨some "t2", some 100⟩ 50
    initialTokenCache (by decide) (by decide) (by decide) (by decide) rfl 100 rfl (by decide)

/-- C8: on the refresh path, if any of `CS_CLIENT_SECRET`, `CS_USERNAME`,
`CS_PASSWORD` is unset, `getAccessToken` fails with the configuration error
before any network call and leaves the cache unchanged; when those three are
set, the guard passes regardless of `CS_TOKEN_URL` and `CS_CLIENT_ID` (which
have defaults) and the network call is made. -/
theorem refresh_missing_creds_config_error (env : Env) (now : Int)
    (outcome : TokenFetchOutcome) (storeTime : Int) (cache : TokenCache)
    (hmiss : (truthyStr cache.access_token && decide (now < cache.expires_at - 60000)) = false) :
    ((env.CS_CLIENT_SECRET = "" ∨ env.CS_USERNAME = "" ∨ env.CS_PASSWORD = "") →
      getAccessToken env now outcome storeTime cache =
        { result := .error missingCredsMsg, cache := cache, networkCall := false }) ∧
    (env.CS_CLIENT_SECRET ≠ "" → env.CS_USERNAME ≠ "" → env.CS_PASSWORD ≠ "" →
      (getAccessToken env now outcome storeTime cache).networkCall = true) := by
  constructor
  · intro h
    unfold getAccessToken
    rw [if_neg (by simp [hmiss]),
      if_pos (by rw [envOr_self, envOr_self, envOr_self]; tauto)]
  · intro hcs hun hpw
    rw [getAccessToken_refresh env now outcome storeTime cache hmiss hcs hun hpw]
    cases outcome with
    | transportError msg => rfl
    | httpResponse ok status statusText text json => cases ok <;> rfl

theorem refresh_missing_creds_config_error_witness :
    getAccessToken { envFull with CS_USERNAME := "" } 3 (.transportError "boom") 9
        initialTokenCache =
      { result := .error missingCredsMsg, cache := initialTokenCache,
        networkCall := false } :=
  (refresh_missing_creds_config_error { envFull with CS_USERNAME := "" } 3
      (.transportError "boom") 9 initialTokenCache (by decide)).1
    (Or.inr (Or.inl rfl))

/-- C10: a 2xx token response whose body lacks `access_token` does not fail:
the absent value is stored as the cached token together with a future
`expires_at`, the absent value is returned, a `/api/find-slot` request would
send the upstream request with that absent bearer-token value, and every
subsequent `getAccessToken` call takes the refresh path again (network call
made) because the cached token is falsy. -/
theorem tokenless_success_caches_absent (env : Env) (now : Int) (status : Nat)
    (statusText text : String) (json : TokenJson) (storeTime : Int) (cache : TokenCache)
    (hmiss : (truthyStr cache.access_token && decide (now < cache.expires_at - 60000)) = false)
    (hcs : env.CS_CLIENT_SECRET ≠ "") (hun : env.CS_USERNAME ≠ "")
    (hpw : env.CS_PASSWORD ≠ "")
    (hnone : json.access_token = none)
    (hpos : json.expires_in = none ∨ ∃ n, json.expires_in = some n ∧ 0 < n) :
    (getAccessToken env now (.httpResponse true status statusText text json)
        storeTime cache).result = Except.ok none ∧
    (getAccessToken env now (.httpResponse true status statusText text json)
        storeTime cache).cache =
      { access_token := none, expires_at := storeTime + jsExpiresIn json * 1000 } ∧
    storeTime < storeTime + jsExpiresIn json * 1000 ∧
    (∀ (now2 : Int) (outcome2 : TokenFetchOutcome) (storeTime2 : Int),
      (getAccessToken env now2 outcome2 storeTime2
        (getAccessToken env now (.httpResponse true status statusText text json)
          storeTime cache).cache).networkCall = true) ∧
    (∀ (q : Query) (upstream : UpstreamOutcome), missingParams q = false →
      (findSlot env now (.httpResponse true status statusText text json)
        storeTime q upstream cache).authTokenSent = some none) := by
  have hr : getAccessToken env now (.httpResponse true status statusText text json)
      storeTime cache =
      { result := .ok none,
        cache := { access_token := none, expires_at := storeTime + jsExpiresIn json * 1000 },
        networkCall := true } := by
    rw [getAccessToken_refresh env now _ storeTime cache hmiss hcs hun hpw]
    simp [hnone]
  have hexp : 0 < jsExpiresIn json := by
    rcases hpos with h | ⟨n, h, hn⟩
    · simp [jsExpiresIn, h]
    · simp only [jsExpiresIn, h]
      rw [if_neg (by omega)]
      exact hn
  refine ⟨by rw [hr], by rw [hr], ?_, ?_, ?_⟩
  · have : 0 < jsExpiresIn json * 1000 := by positivity
    omega
  · intro now2 outcome2 storeTime2
    rw [hr]
    rw [getAccessToken_refresh env now2 outcome2 storeTime2 _ (by simp [truthyStr]) hcs hun hpw]
    cases outcome2 with
    | transportError msg => rfl
    | httpResponse ok s sx tx j => cases ok <;> rfl
  · intro q upstream hq
    unfold findSlot
    rw [hr]
    cases upstream <;> simp [hq]

theorem tokenless_success_caches_absent_witness :
    (getAccessToken envFull 0 (.httpResponse true 200 "OK" "" ⟨none, some 100⟩)
        1000 initialTokenCache).result = Except.ok none ∧
    (getAccessToken envFull 0 (.httpResponse true 200 "OK" "" ⟨none, some 100⟩)
        1000 initialTokenCache).cache =
      { access_token := none,
        expires_at := 1000 + jsExpiresIn ⟨none, some 100⟩ * 1000 } ∧
    ((1000 : Int) < 1000 + jsExpiresIn ⟨none, some 100⟩ * 1000) ∧
    (∀ (now2 : Int) (outcome2 : TokenFetchOutcome) (storeTime2 : Int),
      (getAccessToken envFull now2 outcome2 storeTime2
        (getAccessToken envFull 0 (.httpResponse true 200 "OK" "" ⟨none, some 100⟩)
          1000 initialTokenCache).cache).networkCall = true) ∧
    (∀ (q : Query) (upstream : UpstreamOutcome), missingParams q = false →
      (findSlot envFull 0 (.httpResponse true 200 "OK" "" ⟨none, some 100⟩)
        1000 q upstream initialTokenCache).authTokenSent = some none) :=
  tokenless_success_caches_absent envFull 0 200 "OK" "" ⟨none, some 100⟩ 1000
    initialTokenCache (by decide) (by decide) (by decide) (by decide) rfl
    (Or.inr ⟨100, rfl, by decide⟩)

/-- C2 counterexample: on a request whose `providerId` is missing, with a
cold cache and a reachable token endpoint, the handler still performs the
network call to the token endpoint (the source awaits `getAccessToken()`
before reading the query parameters); and with a failing token fetch the
response to such a request is 500, not 400. -/
theorem findSlot_token_before_validation_counterexample :
    (Query.mk (some "2024-01-01") (some "1") none (some "3")).providerId = none ∧
    (findSlot envFull 0 (.httpResponse true 200 "OK" "" ⟨some "t", none⟩) 0
        (Query.mk (some "2024-01-01") (some "1") none (some "3"))
        (.httpResponse 200 none "{}") initialTokenCache).tokenNetworkCall = true ∧
    (findSlot envFull 0 (.httpResponse true 200 "OK" "" ⟨some "t", none⟩) 0
        (Query.mk (some "2024-01-01") (some "1") none (some "3"))
        (.httpResponse 200 none "{}") initialTokenCache).status = 400 ∧
    (findSlot { envFull with CS_PASSWORD := "" } 0 (.transportError "x") 0
        (Query.mk (some "2024-01-01") (some "1") none (some "3"))
        (.httpResponse 200 none "{}") initialTokenCache).status = 500 :=
  ⟨rfl, rfl, rfl, rfl⟩

/-- C2 (amended): the handler awaits `getAccessToken()` on every request,
before reading the query parameters, so the token-endpoint network call does
not depend on the parameters.  When any of the four parameters is missing, no
upstream scheduling call is made; the response is 400 with the JSON error
body if token acquisition succeeded, and 500 if it failed. -/
theorem findSlot_missing_param_behaviour (env : Env) (now : Int)
    (tokenOutcome : TokenFetchOutcome) (storeTime : Int) (q : Query)
    (upstream : UpstreamOutcome) (cache : TokenCache)
    (hq : missingParams q = true) :
    (findSlot env now tokenOutcome storeTime q upstream cache).upstreamCalled = false ∧
    (findSlot env now tokenOutcome storeTime q upstream cache).tokenNetworkCall =
      (getAccessToken env now tokenOutcome storeTime cache).networkCall ∧
    (∀ t, (getAccessToken env now tokenOutcome storeTime cache).result = .ok t →
      (findSlot env now tokenOutcome storeTime q upstream cache).status = 400 ∧
      (findSlot env now tokenOutcome storeTime q upstream cache).body =
        .jsonError missingParamsMsg) ∧
    (∀ e, (getAccessToken env now tokenOutcome storeTime cache).result = .error e →
      (findSlot env now tokenOutcome storeTime q upstream cache).status = 500 ∧
      (findSlot env now tokenOutcome storeTime q upstream cache).body =
        .jsonErrorDetail "Proxy failure" e) := by
  cases h : (getAccessToken env now tokenOutcome storeTime cache).result with
  | error e =>
    refine ⟨?_, ?_, ?_, ?_⟩
    · simp [findSlot, h]
    · simp [findSlot, h]
    · intro t ht
      exact absurd ht (by simp)
    · intro e' he
      cases he
      constructor <;> simp [findSlot, h]
  | ok t =>
    refine ⟨?_, ?_, ?_, ?_⟩
    · simp [findSlot, h, hq]
    · simp [findSlot, h, hq]
    · intro t' ht
      constructor <;> simp [findSlot, h, hq]
    · intro e he
      exact absurd he (by simp)

theorem findSlot_missing_param_behaviour_witness :
    (findSlot envFull 0 (.httpResponse true 200 "OK" "" ⟨some "t", none⟩) 0
        (Query.mk (some "d") none (some "p") (some "x"))
        (.httpResponse 200 none "{}") initialTokenCache).upstreamCalled = false ∧
    (findSlot envFull 0 (.httpResponse true 200 "OK" "" ⟨some "t", none⟩) 0
        (Query.mk (some "d") none (some "p") (some "x"))
        (.httpResponse 200 none "{}") initialTokenCache).tokenNetworkCall =
      (getAccessToken envFull 0 (.httpResponse true 200 "OK" "" ⟨some "t", none⟩) 0
        initialTokenCache).networkCall ∧
    (∀ t, (getAccessToken envFull 0 (.httpResponse true 200 "OK" "" ⟨some "t", none⟩) 0
        initialTokenCache).result = .ok t →
      (findSlot envFull 0 (.httpResponse true 200 "OK" "" ⟨some "t", none⟩) 0
        (Query.mk (some "d") none (some "p") (some "x"))
        (.httpResponse 200 none "{}") initialTokenCache).status = 400 ∧
      (findSlot envFull 0 (.httpResponse true 200 "OK" "" ⟨some "t", none⟩) 0
        (Query.mk (some "d") none (some "p") (some "x"))
        (.httpResponse 200 none "{}") initialTokenCache).body =
        .jsonError missingParamsMsg) ∧
    (∀ e, (getAccessToken envFull 0 (.httpResponse true 200 "OK" "" ⟨some "t", none⟩) 0
        initialTokenCache).result = .error e →
      (findSlot envFull 0 (.httpResponse true 200 "OK" "" ⟨some "t", none⟩) 0
        (Query.mk (some "d") none (some "p") (some "x"))
        (.httpResponse 200 none "{}") initialTokenCache).status = 500 ∧
      (findSlot envFull 0 (.httpResponse true 200 "OK" "" ⟨some "t", none⟩) 0
        (Query.mk (some "d") none (some "p") (some "x"))
        (.httpResponse 200 none "{}") initialTokenCache).body =
        .jsonErrorDetail "Proxy failure" e) :=
  findSlot_missing_param_behaviour envFull 0
    (.httpResponse true 200 "OK" "" ⟨some "t", none⟩) 0
    (Query.mk (some "d") none (some "p") (some "x"))
    (.httpResponse 200 none "{}") initialTokenCache (by decide)

/-- C6: with all four parameters present and a token obtained, whatever HTTP
response the upstream scheduling endpoint returns is relayed verbatim: its
status code, its `content-type` header when present (the JSON default
otherwise), and its raw body text. -/
theorem findSlot_relays_upstream (env : Env) (now : Int)
    (tokenOutcome : TokenFetchOutcome) (storeTime : Int) (q : Query)
    (status : Nat) (ct : Option String) (text : String) (cache : TokenCache)
    (token : Option String)
    (hq : missingParams q = false)
    (htok : (getAccessToken env now tokenOutcome storeTime cache).result = .ok token) :
    findSlot env now tokenOutcome storeTime q (.httpResponse status ct text) cache =
      { status := status, contentType := ct.getD jsonDefaultCT, body := .raw text,
        tokenNetworkCall := (getAccessToken env now tokenOutcome storeTime cache).networkCall,
        upstreamCalled := true, authTokenSent := some token,
        cache := (getAccessToken env now tokenOutcome storeTime cache).cache } := by
  simp [findSlot, htok, hq]

theorem findSlot_relays_upstream_witness :
    findSlot envFull 0 (.httpResponse true 200 "OK" "" ⟨some "t", none⟩) 0
        (Query.mk (some "2024-01-01") (some "1") (some "2") (some "3"))
        (.httpResponse 200 (some "application/json; charset=utf-8") "\x7b\"slots\":[]\x7d")
        initialTokenCache =
      { status := 200,
        contentType := (some "application/json; charset=utf-8").getD jsonDefaultCT,
        body := .raw "\x7b\"slots\":[]\x7d",
        tokenNetworkCall := (getAccessToken envFull 0
          (.httpResponse true 200 "OK" "" ⟨some "t", none⟩) 0 initialTokenCache).networkCall,
        upstreamCalled := true, authTokenSent := some (some "t"),
        cache := (getAccessToken envFull 0
          (.httpResponse true 200 "OK" "" ⟨some "t", none⟩) 0 initialTokenCache).cache } :=
  findSlot_relays_upstream envFull 0 (.httpResponse true 200 "OK" "" ⟨some "t", none⟩) 0
    (Query.mk (some "2024-01-01") (some "1") (some "2") (some "3"))
    200 (some "application/json; charset=utf-8") "\x7b\"slots\":[]\x7d"
    initialTokenCache (some "t") (by decide) rfl

/-- C7: with all four parameters present, if `getAccessToken` fails (for
example the token endpoint answered 401), the handler responds 500 with the
JSON `Proxy failure` payload and the upstream scheduling request is never
sent. -/
theorem findSlot_token_failure_500 (env : Env) (now : Int)
    (tokenOutcome : TokenFetchOutcome) (storeTime : Int) (q : Query)
    (upstream : UpstreamOutcome) (cache : TokenCache) (e : String)
    (_hq : missingParams q = false)
    (htok : (getAccessToken env now tokenOutcome storeTime cache).result = .error e) :
    findSlot env now tokenOutcome storeTime q upstream cache =
      { status := 500, contentType := jsonDefaultCT,
        body := .jsonErrorDetail "Proxy failure" e,
        tokenNetworkCall := (getAccessToken env now tokenOutcome storeTime cache).networkCall,
        upstreamCalled := false, authTokenSent := none,
        cache := (getAccessToken env now tokenOutcome storeTime cache).cache } := by
  simp [findSlot, htok]

theorem findSlot_token_failure_500_witness :
    findSlot envFull 0 (.httpResponse false 401 "Unauthorized" "" ⟨none, none⟩) 0
        (Query.mk (some "2024-01-01") (some "1") (some "2") (some "3"))
        (.httpResponse 200 none "\x7b\"slots\":[]\x7d") initialTokenCache =
      { status := 500, contentType := jsonDefaultCT,
        body := .jsonErrorDetail "Proxy failure" (tokenFailMsg 401 "Unauthorized" ""),
        tokenNetworkCall := (getAccessToken envFull 0
          (.httpResponse false 401 "Unauthorized" "" ⟨none, none⟩) 0
          initialTokenCache).networkCall,
        upstreamCalled := false, authTokenSent := none,
        cache := (getAccessToken envFull 0
          (.httpResponse false 401 "Unauthorized" "" ⟨none, none⟩) 0
          initialTokenCache).cache } :=
  findSlot_token_failure_500 envFull 0
    (.httpResponse false 401 "Unauthorized" "" ⟨none, none⟩) 0
    (Query.mk (some "2024-01-01") (some "1") (some "2") (some "3"))
    (.httpResponse 200 none "\x7b\"slots\":[]\x7d") initialTokenCache
    (tokenFailMsg 401 "Unauthorized" "") (by decide) rfl

/-- C9 counterexample: a successful (2xx) token fetch whose body lacks
`access_token` takes the empty cache — which satisfies the invariant — to a
cache with an absent token and a meaningful (positive) `expires_at`, so the
invariant "expires_at is meaningful only when access_token is present" is not
preserved by `getAccessToken`. -/
theorem cacheInv_broken_counterexample :
    cacheInv initialTokenCache = true ∧
    (getAccessToken envFull 0 (.httpResponse true 200 "OK" "" ⟨none, some 100⟩)
        1000 initialTokenCache).cache.access_token = none ∧
    (getAccessToken envFull 0 (.httpResponse true 200 "OK" "" ⟨none, some 100⟩)
        1000 initialTokenCache).cache.expires_at = 101000 ∧
    cacheInv (getAccessToken envFull 0 (.httpResponse true 200 "OK" "" ⟨none, some 100⟩)
        1000 initialTokenCache).cache = false :=
  ⟨rfl, rfl, rfl, rfl⟩

/-- C9 (amended): the Token State starts empty (no token, expiry 0) and is
mutated only by a 2xx token fetch, which overwrites both fields together from
the response body; the invariant "expires_at is meaningful only when
access_token is present" is preserved by `getAccessToken`, `/api/token` and
`/api/find-slot` provided every 2xx token response body contains an
`access_token` field — a 2xx body lacking it breaks the invariant. -/
theorem cacheInv_preserved :
    initialTokenCache = { access_token := none, expires_at := 0 } ∧
    cacheInv initialTokenCache = true ∧
    (∀ (env : Env) (now : Int) (outcome : TokenFetchOutcome) (storeTime : Int)
        (cache : TokenCache) (e : String),
      (getAccessToken env now outcome storeTime cache).result = .error e →
      (getAccessToken env now outcome storeTime cache).cache = cache) ∧
    (∀ (env : Env) (now : Int) (outcome : TokenFetchOutcome) (storeTime : Int)
        (cache : TokenCache),
      cacheInv cache = true → successHasToken outcome = true →
      cacheInv (getAccessToken env now outcome storeTime cache).cache = true ∧
      cacheInv (apiToken env now outcome storeTime cache).cache = true ∧
      ∀ (q : Query) (upstream : UpstreamOutcome),
        cacheInv (findSlot env now outcome storeTime q upstream cache).cache = true) := by
  refine ⟨rfl, rfl, ?_, ?_⟩
  · intro env now outcome storeTime cache e he
    rcases getAccessToken_cache_cases env now outcome storeTime cache with h | ⟨s, sx, tx, j, _, hok, _⟩
    · exact h
    · rw [he] at hok
      exact absurd hok (by simp)
  · intro env now outcome storeTime cache hinv htok
    have hget : cacheInv (getAccessToken env now outcome storeTime cache).cache = true := by
      rcases getAccessToken_cache_cases env now outcome storeTime cache with h | ⟨s, sx, tx, j, hout, _, hc⟩
      · rw [h]; exact hinv
      · rw [hc]
        rw [hout] at htok
        simp only [successHasToken, Bool.not_true, Bool.false_or] at htok
        simp [cacheInv, htok]
    refine ⟨hget, ?_, ?_⟩
    · rw [apiToken_cache]; exact hget
    · intro q upstream
      rw [findSlot_cache]; exact hget

theorem cacheInv_preserved_witness :
    cacheInv (getAccessToken envFull 2 (.httpResponse true 200 "OK" "" ⟨some "t", some 100⟩)
        9 initialTokenCache).cache = true :=
  ((cacheInv_preserved.2.2.2 envFull 2 (.httpResponse true 200 "OK" "" ⟨some "t", some 100⟩)
      9 initialTokenCache (by decide) (by decide)).1)

end CareStack
